import Mathlib

/-!
Shallow embedding of the `ai-photo-editor` backend (schema, zod input shapes and
the RPC handlers) and proofs about its API contract.

Modelling conventions:
- the relational store is a `DB` structure holding the three tables as lists of
  rows plus the next auto-increment key per table; a handler that writes takes
  the current clock value `now : Nat` (timestamps are naturals) and returns the
  new `DB`;
- serialized JSON text columns (`parameters`) are modelled at the granularity of
  the JSON value tree (`Json`): the repository's handlers only ever pass these
  columns through `JSON.stringify`/`JSON.parse` verbatim and never inspect the
  character representation, so `JSON.stringify` of a zod-validated parameter bag
  is modelled as the bag's JSON tree and `JSON.parse` as tree inspection;
- JavaScript numbers are modelled as `ℚ` (the handlers perform no arithmetic on
  them, only storage and retrieval, so exactness is faithful);
- JavaScript truthiness coercions in the handlers (`x || null`,
  `x ? f x : null`) are modelled explicitly (`jsStringOrNull`,
  `jsCoerceProcessingTime`);
- a handler that throws (`throw new Error(...)`) is `Except String`, a read that
  returns `null` on a miss is `Option`.
-/

namespace PhotoEditor

/-- JSON value trees, the model of the serialized text stored in the
`parameters` column (`JSON.stringify` output / `JSON.parse` input). -/
inductive Json where
  | null : Json
  | bool (b : Bool) : Json
  | num (q : ℚ) : Json
  | str (s : String) : Json
  | obj (fields : List (String × Json)) : Json

/-- Operation type enum from `db/schema.ts` (`ai_operation_type`). -/
inductive AIOperationType where
  | object_removal
  | style_transfer
  | image_modification
deriving DecidableEq, Repr

/-- Operation status enum from `db/schema.ts` (`ai_operation_status`). -/
inductive AIOperationStatus where
  | pending
  | processing
  | completed
  | failed
deriving DecidableEq, Repr

/-- Row of the `images` table. -/
structure ImageRow where
  id : Nat
  filename : String
  original_filename : String
  file_path : String
  file_size : Nat
  mime_type : String
  width : Nat
  height : Nat
  created_at : Nat
  updated_at : Nat
deriving DecidableEq, Repr

/-- Row of the `ai_operations` table. -/
structure AIOperationRow where
  id : Nat
  image_id : Nat
  operation_type : AIOperationType
  status : AIOperationStatus
  prompt : Option String
  mask_data : Option String
  parameters : Option Json
  result_image_path : Option String
  error_message : Option String
  processing_time : Option ℚ
  created_at : Nat
  updated_at : Nat

/-- Row of the `projects` table. -/
structure ProjectRow where
  id : Nat
  name : String
  description : Option String
  original_image_id : Nat
  current_image_path : String
  operations_history : String
  is_public : Bool
  created_at : Nat
  updated_at : Nat
deriving DecidableEq, Repr

/-- The relational store: the three tables plus the serial key counters. -/
structure DB where
  images : List ImageRow
  operations : List AIOperationRow
  projects : List ProjectRow
  nextImageId : Nat
  nextOperationId : Nat
  nextProjectId : Nat

/-- Input accepted by `uploadImageInputSchema`. -/
structure UploadImageInput where
  filename : String
  original_filename : String
  file_path : String
  file_size : Nat
  mime_type : String
  width : Nat
  height : Nat
deriving DecidableEq, Repr

/-- The positivity constraints of `uploadImageInputSchema`
(`file_size.positive`, `width.int.positive`, `height.int.positive`). -/
def uploadImageInputValid (i : UploadImageInput) : Prop :=
  0 < i.file_size ∧ 0 < i.width ∧ 0 < i.height

instance (i : UploadImageInput) : Decidable (uploadImageInputValid i) :=
  inferInstanceAs (Decidable (_ ∧ _ ∧ _))

/-- Parameter bag of `objectRemovalInputSchema` after zod defaults. -/
structure ObjectRemovalParams where
  inpaint_strength : ℚ
  guidance_scale : ℚ
deriving DecidableEq, Repr

/-- Parameter bag of `styleTransferInputSchema` after zod defaults. -/
structure StyleTransferParams where
  style_strength : ℚ
  guidance_scale : ℚ
  num_inference_steps : ℚ
deriving DecidableEq, Repr

/-- Parameter bag of `imageModificationInputSchema` after zod defaults. -/
structure ImageModificationParams where
  modification_strength : ℚ
  guidance_scale : ℚ
  num_inference_steps : ℚ
deriving DecidableEq, Repr

/-- Input accepted by `objectRemovalInputSchema`. -/
structure ObjectRemovalInput where
  image_id : Nat
  mask_data : String
  parameters : Option ObjectRemovalParams

/-- Input accepted by `styleTransferInputSchema`. -/
structure StyleTransferInput where
  image_id : Nat
  prompt : String
  parameters : Option StyleTransferParams

/-- Input accepted by `imageModificationInputSchema`. -/
structure ImageModificationInput where
  image_id : Nat
  prompt : String
  mask_data : Option String
  parameters : Option ImageModificationParams

/-- Input accepted by `createProjectInputSchema` after the zod default for
`is_public` (`description` stays optional/nullable at the handler). -/
structure CreateProjectInput where
  name : String
  description : Option String
  original_image_id : Nat
  is_public : Bool

/-- Input accepted by `listProjectsInputSchema` after zod defaults. -/
structure ListProjectsInput where
  limit : Nat
  offset : Nat
  public_only : Bool

/-- Input accepted by `updateProjectInputSchema`: every mutable field may be
omitted (`none`); for `description`, `some none` is an explicit null. -/
structure UpdateProjectInput where
  id : Nat
  name : Option String
  description : Option (Option String)
  current_image_path : Option String
  operations_history : Option String
  is_public : Option Bool

/-- `JSON.stringify` of an object-removal parameter bag (key order is the
schema's declaration order). -/
def serializeObjectRemovalParams (p : ObjectRemovalParams) : Json :=
  Json.obj [("inpaint_strength", Json.num p.inpaint_strength),
            ("guidance_scale", Json.num p.guidance_scale)]

/-- `JSON.stringify` of a style-transfer parameter bag. -/
def serializeStyleTransferParams (p : StyleTransferParams) : Json :=
  Json.obj [("style_strength", Json.num p.style_strength),
            ("guidance_scale", Json.num p.guidance_scale),
            ("num_inference_steps", Json.num p.num_inference_steps)]

/-- `JSON.stringify` of an image-modification parameter bag. -/
def serializeImageModificationParams (p : ImageModificationParams) : Json :=
  Json.obj [("modification_strength", Json.num p.modification_strength),
            ("guidance_scale", Json.num p.guidance_scale),
            ("num_inference_steps", Json.num p.num_inference_steps)]

/-- Look a numeric field up in a parsed JSON object. -/
def jsonLookupNum (fields : List (String × Json)) (k : String) : Option ℚ :=
  match fields.lookup k with
  | some (Json.num q) => some q
  | _ => none

/-- `JSON.parse` of stored parameters read back as an object-removal bag. -/
def parseObjectRemovalParams (j : Json) : Option ObjectRemovalParams :=
  match j with
  | Json.obj fields =>
    match jsonLookupNum fields "inpaint_strength",
          jsonLookupNum fields "guidance_scale" with
    | some a, some b => some { inpaint_strength := a, guidance_scale := b }
    | _, _ => none
  | _ => none

/-- `JSON.parse` of stored parameters read back as a style-transfer bag. -/
def parseStyleTransferParams (j : Json) : Option StyleTransferParams :=
  match j with
  | Json.obj fields =>
    match jsonLookupNum fields "style_strength",
          jsonLookupNum fields "guidance_scale",
          jsonLookupNum fields "num_inference_steps" with
    | some a, some b, some c =>
      some { style_strength := a, guidance_scale := b, num_inference_steps := c }
    | _, _, _ => none
  | _ => none

/-- `JSON.parse` of stored parameters read back as an image-modification bag. -/
def parseImageModificationParams (j : Json) : Option ImageModificationParams :=
  match j with
  | Json.obj fields =>
    match jsonLookupNum fields "modification_strength",
          jsonLookupNum fields "guidance_scale",
          jsonLookupNum fields "num_inference_steps" with
    | some a, some b, some c =>
      some { modification_strength := a, guidance_scale := b,
             num_inference_steps := c }
    | _, _, _ => none
  | _ => none

/-- JavaScript `x || null` on an optional string: both `undefined`/`null` and
the falsy empty string coerce to null. -/
def jsStringOrNull (s : Option String) : Option String :=
  match s with
  | some v => if v = "" then none else some v
  | none => none

/-- JavaScript `op.processing_time ? parseFloat(op.processing_time.toString()) : null`
as used by the creation handlers and `getOperationResult`: a null (and also a
falsy 0) maps to null, any other number is returned unchanged. -/
def jsCoerceProcessingTime (t : Option ℚ) : Option ℚ :=
  match t with
  | some q => if q = 0 then none else some q
  | none => none

/-- JavaScript `op.processing_time !== null ? parseFloat(String(...)) : null`
as used by `listOperations`: an explicit null check, the identity here. -/
def jsProcessingTimeNullCheck (t : Option ℚ) : Option ℚ :=
  match t with
  | some q => some q
  | none => none

/-- `db.select().from(imagesTable).where(eq(imagesTable.id, imageId))`. -/
def selectImagesById (db : DB) (imageId : Nat) : List ImageRow :=
  db.images.filter (fun r => r.id == imageId)

/-- `db.select().from(projectsTable).where(eq(projectsTable.id, projectId))`. -/
def selectProjectsById (db : DB) (projectId : Nat) : List ProjectRow :=
  db.projects.filter (fun r => r.id == projectId)

/-- `db.select().from(aiOperationsTable).where(eq(aiOperationsTable.id, operationId))`. -/
def selectOperationsById (db : DB) (operationId : Nat) : List AIOperationRow :=
  db.operations.filter (fun r => r.id == operationId)

/-- The referential error text thrown by the creation handlers. -/
def notFoundMessage (imageId : Nat) : String :=
  "Image with id " ++ toString imageId ++ " not found"

/-- Handler `uploadImage` (unnamed part 003): insert one image row and return
it verbatim with the generated id and timestamps. -/
def uploadImage (db : DB) (now : Nat) (input : UploadImageInput) :
    ImageRow × DB :=
  let image : ImageRow :=
    { id := db.nextImageId
      filename := input.filename
      original_filename := input.original_filename
      file_path := input.file_path
      file_size := input.file_size
      mime_type := input.mime_type
      width := input.width
      height := input.height
      created_at := now
      updated_at := now }
  (image, { db with images := db.images ++ [image],
                    nextImageId := db.nextImageId + 1 })

/-- Handler `getImage` (unnamed part 005): select by id, null on a miss. -/
def getImage (db : DB) (imageId : Nat) : Option ImageRow :=
  match selectImagesById db imageId with
  | [] => none
  | r :: _ => some r

/-- Handler `getProject` (unnamed part 001): select by id, null on a miss;
the returned record spreads the row unchanged. -/
def getProject (db : DB) (projectId : Nat) : Option ProjectRow :=
  match selectProjectsById db projectId with
  | [] => none
  | r :: _ => some r

/-- Handler `getOperationResult` (`handlers/get_operation_result.ts`): select
by id, null on a miss, numeric coercion of `processing_time` on a hit. -/
def getOperationResult (db : DB) (operationId : Nat) : Option AIOperationRow :=
  match selectOperationsById db operationId with
  | [] => none
  | op :: _ =>
    some { op with processing_time := jsCoerceProcessingTime op.processing_time }

/-- Handler `removeObject` (unnamed part 004): check the image exists, then
insert one `object_removal` operation row with status `pending`. -/
def removeObject (db : DB) (now : Nat) (input : ObjectRemovalInput) :
    Except String (AIOperationRow × DB) :=
  match selectImagesById db input.image_id with
  | [] => Except.error (notFoundMessage input.image_id)
  | _ :: _ =>
    let parametersJson := input.parameters.map serializeObjectRemovalParams
    let operation : AIOperationRow :=
      { id := db.nextOperationId
        image_id := input.image_id
        operation_type := AIOperationType.object_removal
        status := AIOperationStatus.pending
        prompt := none
        mask_data := some input.mask_data
        parameters := parametersJson
        result_image_path := none
        error_message := none
        processing_time := none
        created_at := now
        updated_at := now }
    Except.ok
      ({ operation with
          processing_time := jsCoerceProcessingTime operation.processing_time },
       { db with operations := db.operations ++ [operation],
                 nextOperationId := db.nextOperationId + 1 })

/-- Handler `applyStyleTransfer` (`handlers/apply_style_transfer.ts`): check
the image exists, then insert one `style_transfer` operation row with status
`pending` and no mask. -/
def applyStyleTransfer (db : DB) (now : Nat) (input : StyleTransferInput) :
    Except String (AIOperationRow × DB) :=
  match selectImagesById db input.image_id with
  | [] => Except.error (notFoundMessage input.image_id)
  | _ :: _ =>
    let parametersJson := input.parameters.map serializeStyleTransferParams
    let operation : AIOperationRow :=
      { id := db.nextOperationId
        image_id := input.image_id
        operation_type := AIOperationType.style_transfer
        status := AIOperationStatus.pending
        prompt := some input.prompt
        mask_data := none
        parameters := parametersJson
        result_image_path := none
        error_message := none
        processing_time := none
        created_at := now
        updated_at := now }
    Except.ok
      ({ operation with
          processing_time := jsCoerceProcessingTime operation.processing_time },
       { db with operations := db.operations ++ [operation],
                 nextOperationId := db.nextOperationId + 1 })

/-- Handler `modifyImage` (unnamed part 008): check the image exists, then
insert one `image_modification` operation row with status `pending`
(`mask_data: input.mask_data || null`). -/
def modifyImage (db : DB) (now : Nat) (input : ImageModificationInput) :
    Except String (AIOperationRow × DB) :=
  match selectImagesById db input.image_id with
  | [] => Except.error (notFoundMessage input.image_id)
  | _ :: _ =>
    let parametersJson := input.parameters.map serializeImageModificationParams
    let operation : AIOperationRow :=
      { id := db.nextOperationId
        image_id := input.image_id
        operation_type := AIOperationType.image_modification
        status := AIOperationStatus.pending
        prompt := some input.prompt
        mask_data := jsStringOrNull input.mask_data
        parameters := parametersJson
        result_image_path := none
        error_message := none
        processing_time := none
        created_at := now
        updated_at := now }
    Except.ok
      ({ operation with
          processing_time := jsCoerceProcessingTime operation.processing_time },
       { db with operations := db.operations ++ [operation],
                 nextOperationId := db.nextOperationId + 1 })

/-- Handler `createProject` (unnamed part 002): check the referenced image
exists, then insert one project row seeded from the image's stored path with an
empty serialized operations history (`JSON.stringify([])` is `"[]"`);
`description: input.description || null`, `is_public: input.is_public || false`. -/
def createProject (db : DB) (now : Nat) (input : CreateProjectInput) :
    Except String (ProjectRow × DB) :=
  match selectImagesById db input.original_image_id with
  | [] => Except.error (notFoundMessage input.original_image_id)
  | imageRecord :: _ =>
    let project : ProjectRow :=
      { id := db.nextProjectId
        name := input.name
        description := jsStringOrNull input.description
        original_image_id := input.original_image_id
        current_image_path := imageRecord.file_path
        operations_history := "[]"
        is_public := input.is_public || false
        created_at := now
        updated_at := now }
    Except.ok (project, { db with projects := db.projects ++ [project],
                                  nextProjectId := db.nextProjectId + 1 })

/-- `orderBy(desc(aiOperationsTable.created_at))`: descending creation time. -/
def operationCreatedDesc (a b : AIOperationRow) : Prop :=
  b.created_at ≤ a.created_at

instance : DecidableRel operationCreatedDesc := fun a b =>
  inferInstanceAs (Decidable (b.created_at ≤ a.created_at))

instance : IsTotal AIOperationRow operationCreatedDesc :=
  ⟨fun a b => le_total b.created_at a.created_at⟩

instance : IsTrans AIOperationRow operationCreatedDesc :=
  ⟨fun _ _ _ h1 h2 => le_trans h2 h1⟩

/-- Handler `listOperations` (unnamed part 002): optional image filter, order
by `created_at` descending, then the per-row null-checked numeric mapping. -/
def listOperations (db : DB) (imageId : Option Nat) : List AIOperationRow :=
  let results :=
    match imageId with
    | some i => db.operations.filter (fun op => op.image_id == i)
    | none => db.operations
  (List.insertionSort operationCreatedDesc results).map
    (fun op =>
      { op with
          processing_time := jsProcessingTimeNullCheck op.processing_time })

/-- Result shape of `listProjects`. -/
structure ListProjectsResult where
  projects : List ProjectRow
  total : Nat
deriving DecidableEq, Repr

/-- Handler `listProjects` (unnamed part 006): page query with limit/offset and
an independent count query, both over the same optional public-only filter. -/
def listProjects (db : DB) (input : ListProjectsInput) : ListProjectsResult :=
  if input.public_only then
    let matching := db.projects.filter (fun p => p.is_public)
    { projects := (matching.drop input.offset).take input.limit
      total := matching.length }
  else
    { projects := ((db.projects.drop input.offset).take input.limit)
      total := db.projects.length }

/-- Modelled from the spec: the repository's `updateProject` handler exists in
`src` only as a placeholder stub (`handlers/update_project.ts` returns a
constant null); the real implementation is absent and only its tests are
present. Per the spec (sections 3 and 4.4): apply any supplied subset of
{name, description, current_image_path, operations_history, is_public} to the
matching project, leave omitted fields untouched, always refresh the update
timestamp, and return the updated row, or null when no project matches the id. -/
def applyProjectUpdate (now : Nat) (input : UpdateProjectInput)
    (p : ProjectRow) : ProjectRow :=
  { p with
      name := input.name.getD p.name
      description := input.description.getD p.description
      current_image_path := input.current_image_path.getD p.current_image_path
      operations_history := input.operations_history.getD p.operations_history
      is_public := input.is_public.getD p.is_public
      updated_at := now }

/-- Modelled from the spec: `updateProject` — look the project up by id; on a
miss return null with the store unchanged, on a hit store and return the row
updated by `applyProjectUpdate`. -/
def updateProject (db : DB) (now : Nat) (input : UpdateProjectInput) :
    Option ProjectRow × DB :=
  match db.projects.find? (fun p => p.id == input.id) with
  | none => (none, db)
  | some p =>
    let updated := applyProjectUpdate now input p
    (some updated,
     { db with projects :=
        db.projects.map (fun q => if q.id == input.id then updated else q) })

/-- An image row with the given id exists in the store. -/
def imageExists (db : DB) (imageId : Nat) : Prop :=
  ∃ r ∈ db.images, r.id = imageId

instance (db : DB) (imageId : Nat) : Decidable (imageExists db imageId) :=
  List.decidableBEx _ db.images

/-- The creation result is a success and its returned row satisfies `P`
(vacuously true on the error path, where no row is created). -/
def createdRowHas (r : Except String (AIOperationRow × DB))
    (P : AIOperationRow → Prop) : Prop :=
  match r with
  | Except.ok (row, _) => P row
  | Except.error _ => True

/-- The creation result is a success whose row and new store satisfy `P`. -/
def okOperation (r : Except String (AIOperationRow × DB))
    (P : AIOperationRow → DB → Prop) : Prop :=
  match r with
  | Except.ok (row, db) => P row db
  | Except.error _ => False

/-- The project-creation result is a success whose row and store satisfy `P`. -/
def okProject (r : Except String (ProjectRow × DB))
    (P : ProjectRow → DB → Prop) : Prop :=
  match r with
  | Except.ok (row, db) => P row db
  | Except.error _ => False

/-- Contract on a freshly created operation row: pending, with null result
path, error message and processing time. -/
def pendingWithNullResults (row : AIOperationRow) : Prop :=
  row.status = AIOperationStatus.pending ∧
  row.result_image_path = none ∧
  row.error_message = none ∧
  row.processing_time = none

/-- Concrete image row used by the instantiation theorems. -/
def wImage : ImageRow :=
  { id := 1, filename := "photo.jpg", original_filename := "original.jpg",
    file_path := "/uploads/photo.jpg", file_size := 1024,
    mime_type := "image/jpeg", width := 800, height := 600,
    created_at := 0, updated_at := 0 }

/-- Concrete project row used by the instantiation theorems. -/
def wProject (i : Nat) : ProjectRow :=
  { id := i, name := "Test Project", description := none,
    original_image_id := 1, current_image_path := "/uploads/photo.jpg",
    operations_history := "[]", is_public := true,
    created_at := i, updated_at := i }

/-- Concrete operation row used by the instantiation theorems. -/
def wOperation : AIOperationRow :=
  { id := 1, image_id := 1, operation_type := AIOperationType.object_removal,
    status := AIOperationStatus.pending, prompt := none,
    mask_data := some "mask", parameters := none, result_image_path := none,
    error_message := none, processing_time := none,
    created_at := 0, updated_at := 0 }

/-- Concrete store with one row per table. -/
def wC3DB : DB :=
  { images := [wImage], operations := [wOperation], projects := [wProject 1],
    nextImageId := 2, nextOperationId := 2, nextProjectId := 2 }

lemma selectImagesById_eq_nil_iff (db : DB) (i : Nat) :
    selectImagesById db i = [] ↔ ¬ imageExists db i := by
  simp [selectImagesById, imageExists, List.filter_eq_nil_iff]

lemma jsProcessingTimeNullCheck_eq (t : Option ℚ) :
    jsProcessingTimeNullCheck t = t := by
  cases t <;> rfl

lemma map_nullCheck_id (l : List AIOperationRow) :
    l.map (fun op =>
      { op with
          processing_time := jsProcessingTimeNullCheck op.processing_time }) = l := by
  induction l with
  | nil => rfl
  | cons a l ih => rw [List.map_cons, ih, jsProcessingTimeNullCheck_eq]

lemma listOperations_some_eq (db : DB) (i : Nat) :
    listOperations db (some i) = List.insertionSort operationCreatedDesc
      (db.operations.filter (fun op => op.image_id == i)) := by
  simp [listOperations, map_nullCheck_id]

lemma listOperations_none_eq (db : DB) :
    listOperations db none =
      List.insertionSort operationCreatedDesc db.operations := by
  simp [listOperations, map_nullCheck_id]

lemma parse_serialize_objectRemoval (p : ObjectRemovalParams) :
    parseObjectRemovalParams (serializeObjectRemovalParams p) = some p := rfl

lemma parse_serialize_styleTransfer (p : StyleTransferParams) :
    parseStyleTransferParams (serializeStyleTransferParams p) = some p := rfl

lemma parse_serialize_imageModification (p : ImageModificationParams) :
    parseImageModificationParams (serializeImageModificationParams p) = some p :=
  rfl

/-- C3: for every id that matches no stored row, `getImage`, `getProject` and
`getOperationResult` each return null (the handlers are total functions into
`Option`, so no error is raised on a miss). -/
theorem getters_return_null_on_missing_ids (db : DB)
    (imageId projectId operationId : Nat)
    (h1 : ∀ r ∈ db.images, r.id ≠ imageId)
    (h2 : ∀ p ∈ db.projects, p.id ≠ projectId)
    (h3 : ∀ op ∈ db.operations, op.id ≠ operationId) :
    getImage db imageId = none ∧
    getProject db projectId = none ∧
    getOperationResult db operationId = none := by
  have e1 : selectImagesById db imageId = [] := by
    simp only [selectImagesById, List.filter_eq_nil_iff, beq_iff_eq]
    exact h1
  have e2 : selectProjectsById db projectId = [] := by
    simp only [selectProjectsById, List.filter_eq_nil_iff, beq_iff_eq]
    exact h2
  have e3 : selectOperationsById db operationId = [] := by
    simp only [selectOperationsById, List.filter_eq_nil_iff, beq_iff_eq]
    exact h3
  exact ⟨by simp [getImage, e1], by simp [getProject, e2],
         by simp [getOperationResult, e3]⟩

/-- C3 witness: at a concrete store holding one row per table, looking any of
the three entities up under a fresh id yields null. -/
theorem getters_return_null_on_missing_ids_witness :
    getImage wC3DB 999999 = none ∧
    getProject wC3DB 999999 = none ∧
    getOperationResult wC3DB 999999 = none :=
  getters_return_null_on_missing_ids wC3DB 999999 999999 999999
    (by decide) (by decide) (by decide)

/-- C9: the page returned by `listProjects` never holds more than `limit` rows
and never more rows than the returned total. -/
theorem listProjects_page_bounds (db : DB) (input : ListProjectsInput) :
    (listProjects db input).projects.length ≤ input.limit ∧
    (listProjects db input).projects.length ≤ (listProjects db input).total := by
  refine ⟨?_, ?_⟩ <;> by_cases hp : input.public_only = true <;>
    simp [listProjects, hp, List.length_take, List.length_drop]

/-- C10: `applyStyleTransfer` always stores a null `mask_data` and
`removeObject` always stores a null `prompt`, whatever the input (each creation
path nulls the payload fields its operation type does not use); vacuous on the
error path, where no row is created. -/
theorem creation_nulls_unused_payload_fields (db : DB) (now : Nat) :
    (∀ input : StyleTransferInput,
      createdRowHas (applyStyleTransfer db now input)
        (fun row => row.mask_data = none)) ∧
    (∀ input : ObjectRemovalInput,
      createdRowHas (removeObject db now input)
        (fun row => row.prompt = none)) := by
  constructor
  · intro input
    cases e : selectImagesById db input.image_id with
    | nil => simp [applyStyleTransfer, e, createdRowHas]
    | cons r rest => simp [applyStyleTransfer, e, createdRowHas]
  · intro input
    cases e : selectImagesById db input.image_id with
    | nil => simp [removeObject, e, createdRowHas]
    | cons r rest => simp [removeObject, e, createdRowHas]

/-- C7: `listOperations` returns exactly the matching rows (a permutation of
the image-filtered table, or of the whole table when no filter is supplied),
sorted by `created_at` descending, with no pagination applied. -/
theorem listOperations_ordering (db : DB) :
    (∀ i : Nat,
      (listOperations db (some i)).Perm
        (db.operations.filter (fun op => op.image_id == i)) ∧
      List.Sorted operationCreatedDesc (listOperations db (some i))) ∧
    (listOperations db none).Perm db.operations ∧
    List.Sorted operationCreatedDesc (listOperations db none) := by
  refine ⟨fun i => ⟨?_, ?_⟩, ?_, ?_⟩
  · rw [listOperations_some_eq]; exact List.perm_insertionSort _ _
  · rw [listOperations_some_eq]; exact List.sorted_insertionSort _ _
  · rw [listOperations_none_eq]; exact List.perm_insertionSort _ _
  · rw [listOperations_none_eq]; exact List.sorted_insertionSort _ _

/-- C1: each of the three operation-creation handlers raises the referential
error naming the missing image id when the referenced image does not exist,
and when it exists returns an operation row with status exactly `pending` and
null `result_image_path`, `error_message` and `processing_time`. -/
theorem operation_creation_contract (db : DB) (now : Nat) :
    (∀ input : ObjectRemovalInput, ¬ imageExists db input.image_id →
      removeObject db now input =
        Except.error (notFoundMessage input.image_id)) ∧
    (∀ input : ObjectRemovalInput, imageExists db input.image_id →
      okOperation (removeObject db now input)
        (fun row _ => pendingWithNullResults row)) ∧
    (∀ input : StyleTransferInput, ¬ imageExists db input.image_id →
      applyStyleTransfer db now input =
        Except.error (notFoundMessage input.image_id)) ∧
    (∀ input : StyleTransferInput, imageExists db input.image_id →
      okOperation (applyStyleTransfer db now input)
        (fun row _ => pendingWithNullResults row)) ∧
    (∀ input : ImageModificationInput, ¬ imageExists db input.image_id →
      modifyImage db now input =
        Except.error (notFoundMessage input.image_id)) ∧
    (∀ input : ImageModificationInput, imageExists db input.image_id →
      okOperation (modifyImage db now input)
        (fun row _ => pendingWithNullResults row)) := by
  refine ⟨fun input h => ?_, fun input h => ?_, fun input h => ?_,
          fun input h => ?_, fun input h => ?_, fun input h => ?_⟩
  · have e : selectImagesById db input.image_id = [] :=
      (selectImagesById_eq_nil_iff db input.image_id).mpr h
    simp [removeObject, e]
  · cases e : selectImagesById db input.image_id with
    | nil => exact absurd ((selectImagesById_eq_nil_iff db input.image_id).mp e) (not_not_intro h)
    | cons r rest =>
      simp [removeObject, e, okOperation, pendingWithNullResults,
            jsCoerceProcessingTime]
  · have e : selectImagesById db input.image_id = [] :=
      (selectImagesById_eq_nil_iff db input.image_id).mpr h
    simp [applyStyleTransfer, e]
  · cases e : selectImagesById db input.image_id with
    | nil => exact absurd ((selectImagesById_eq_nil_iff db input.image_id).mp e) (not_not_intro h)
    | cons r rest =>
      simp [applyStyleTransfer, e, okOperation, pendingWithNullResults,
            jsCoerceProcessingTime]
  · have e : selectImagesById db input.image_id = [] :=
      (selectImagesById_eq_nil_iff db input.image_id).mpr h
    simp [modifyImage, e]
  · cases e : selectImagesById db input.image_id with
    | nil => exact absurd ((selectImagesById_eq_nil_iff db input.image_id).mp e) (not_not_intro h)
    | cons r rest =>
      simp [modifyImage, e, okOperation, pendingWithNullResults,
            jsCoerceProcessingTime]

/-- Concrete store holding only `wImage` (id 1). -/
def wDB : DB :=
  { images := [wImage], operations := [], projects := [],
    nextImageId := 2, nextOperationId := 1, nextProjectId := 1 }

/-- Object-removal input referencing the missing image 999999. -/
def wRemoveMissing : ObjectRemovalInput :=
  { image_id := 999999, mask_data := "mask", parameters := none }

/-- Object-removal input referencing image 1, no parameter bag. -/
def wRemoveNoParams : ObjectRemovalInput :=
  { image_id := 1, mask_data := "mask", parameters := none }

/-- Object-removal input referencing image 1 with the parameter bag
`{inpaint_strength: 0.9, guidance_scale: 10.0}`. -/
def wRemoveParams : ObjectRemovalInput :=
  { image_id := 1, mask_data := "mask",
    parameters := some { inpaint_strength := 9/10, guidance_scale := 10 } }

/-- Style-transfer input referencing the missing image 999999. -/
def wStyleMissing : StyleTransferInput :=
  { image_id := 999999, prompt := "watercolor", parameters := none }

/-- Style-transfer input referencing image 1, no parameter bag. -/
def wStyleNoParams : StyleTransferInput :=
  { image_id := 1, prompt := "watercolor", parameters := none }

/-- Style-transfer input referencing image 1 with a parameter bag. -/
def wStyleParams : StyleTransferInput :=
  { image_id := 1, prompt := "watercolor",
    parameters := some { style_strength := 7/10, guidance_scale := 15/2,
                         num_inference_steps := 50 } }

/-- Image-modification input referencing the missing image 999999. -/
def wModifyMissing : ImageModificationInput :=
  { image_id := 999999, prompt := "add a sunset", mask_data := none,
    parameters := none }

/-- Image-modification input referencing image 1, no parameter bag. -/
def wModifyNoParams : ImageModificationInput :=
  { image_id := 1, prompt := "add a sunset", mask_data := none,
    parameters := none }

/-- Image-modification input referencing image 1 with a parameter bag. -/
def wModifyParams : ImageModificationInput :=
  { image_id := 1, prompt := "add a sunset", mask_data := some "mask",
    parameters := some { modification_strength := 4/5, guidance_scale := 10,
                         num_inference_steps := 50 } }

/-- C1 witness: at the concrete store `wDB`, the three handlers raise the
referential error for image 999999 and create pending rows for image 1. -/
theorem operation_creation_contract_witness :
    removeObject wDB 3 wRemoveMissing = Except.error (notFoundMessage 999999) ∧
    okOperation (removeObject wDB 3 wRemoveNoParams)
      (fun row _ => pendingWithNullResults row) ∧
    applyStyleTransfer wDB 3 wStyleMissing =
      Except.error (notFoundMessage 999999) ∧
    okOperation (applyStyleTransfer wDB 3 wStyleNoParams)
      (fun row _ => pendingWithNullResults row) ∧
    modifyImage wDB 3 wModifyMissing = Except.error (notFoundMessage 999999) ∧
    okOperation (modifyImage wDB 3 wModifyNoParams)
      (fun row _ => pendingWithNullResults row) :=
  ⟨(operation_creation_contract wDB 3).1 wRemoveMissing (by decide),
   (operation_creation_contract wDB 3).2.1 wRemoveNoParams (by decide),
   (operation_creation_contract wDB 3).2.2.1 wStyleMissing (by decide),
   (operation_creation_contract wDB 3).2.2.2.1 wStyleNoParams (by decide),
   (operation_creation_contract wDB 3).2.2.2.2.1 wModifyMissing (by decide),
   (operation_creation_contract wDB 3).2.2.2.2.2 wModifyNoParams (by decide)⟩

/-- C8: an omitted parameter bag is stored as null (not a serialized empty
object); a supplied bag is stored as its serialization, and deserializing that
stored value yields a bag equal to the input one. -/
theorem parameter_bag_storage_roundtrip (db : DB) (now : Nat) :
    (∀ input : ObjectRemovalInput, input.parameters = none →
      createdRowHas (removeObject db now input)
        (fun row => row.parameters = none)) ∧
    (∀ input : ObjectRemovalInput, ∀ p : ObjectRemovalParams,
      input.parameters = some p →
      createdRowHas (removeObject db now input) (fun row =>
        row.parameters = some (serializeObjectRemovalParams p) ∧
        parseObjectRemovalParams (serializeObjectRemovalParams p) = some p)) ∧
    (∀ input : StyleTransferInput, input.parameters = none →
      createdRowHas (applyStyleTransfer db now input)
        (fun row => row.parameters = none)) ∧
    (∀ input : StyleTransferInput, ∀ p : StyleTransferParams,
      input.parameters = some p →
      createdRowHas (applyStyleTransfer db now input) (fun row =>
        row.parameters = some (serializeStyleTransferParams p) ∧
        parseStyleTransferParams (serializeStyleTransferParams p) = some p)) ∧
    (∀ input : ImageModificationInput, input.parameters = none →
      createdRowHas (modifyImage db now input)
        (fun row => row.parameters = none)) ∧
    (∀ input : ImageModificationInput, ∀ p : ImageModificationParams,
      input.parameters = some p →
      createdRowHas (modifyImage db now input) (fun row =>
        row.parameters = some (serializeImageModificationParams p) ∧
        parseImageModificationParams (serializeImageModificationParams p) =
          some p)) := by
  refine ⟨fun input h => ?_, fun input p h => ?_, fun input h => ?_,
          fun input p h => ?_, fun input h => ?_, fun input p h => ?_⟩ <;>
    cases e : selectImagesById db input.image_id <;>
      simp [removeObject, applyStyleTransfer, modifyImage, e, createdRowHas, h,
            parse_serialize_objectRemoval, parse_serialize_styleTransfer,
            parse_serialize_imageModification]

/-- C8 witness: at the concrete store `wDB`, omitted bags store as null and
the concrete bag `{inpaint_strength: 0.9, guidance_scale: 10.0}` (and its
style/modification counterparts) round-trips exactly. -/
theorem parameter_bag_storage_roundtrip_witness :
    createdRowHas (removeObject wDB 3 wRemoveNoParams)
      (fun row => row.parameters = none) ∧
    createdRowHas (removeObject wDB 3 wRemoveParams) (fun row =>
      row.parameters = some (serializeObjectRemovalParams
        { inpaint_strength := 9/10, guidance_scale := 10 }) ∧
      parseObjectRemovalParams (serializeObjectRemovalParams
        { inpaint_strength := 9/10, guidance_scale := 10 }) =
        some { inpaint_strength := 9/10, guidance_scale := 10 }) ∧
    createdRowHas (applyStyleTransfer wDB 3 wStyleNoParams)
      (fun row => row.parameters = none) ∧
    createdRowHas (applyStyleTransfer wDB 3 wStyleParams) (fun row =>
      row.parameters = some (serializeStyleTransferParams
        { style_strength := 7/10, guidance_scale := 15/2,
          num_inference_steps := 50 }) ∧
      parseStyleTransferParams (serializeStyleTransferParams
        { style_strength := 7/10, guidance_scale := 15/2,
          num_inference_steps := 50 }) =
        some { style_strength := 7/10, guidance_scale := 15/2,
               num_inference_steps := 50 }) ∧
    createdRowHas (modifyImage wDB 3 wModifyNoParams)
      (fun row => row.parameters = none) ∧
    createdRowHas (modifyImage wDB 3 wModifyParams) (fun row =>
      row.parameters = some (serializeImageModificationParams
        { modification_strength := 4/5, guidance_scale := 10,
          num_inference_steps := 50 }) ∧
      parseImageModificationParams (serializeImageModificationParams
        { modification_strength := 4/5, guidance_scale := 10,
          num_inference_steps := 50 }) =
        some { modification_strength := 4/5, guidance_scale := 10,
               num_inference_steps := 50 }) :=
  ⟨(parameter_bag_storage_roundtrip wDB 3).1 wRemoveNoParams rfl,
   (parameter_bag_storage_roundtrip wDB 3).2.1 wRemoveParams _ rfl,
   (parameter_bag_storage_roundtrip wDB 3).2.2.1 wStyleNoParams rfl,
   (parameter_bag_storage_roundtrip wDB 3).2.2.2.1 wStyleParams _ rfl,
   (parameter_bag_storage_roundtrip wDB 3).2.2.2.2.1 wModifyNoParams rfl,
   (parameter_bag_storage_roundtrip wDB 3).2.2.2.2.2 wModifyParams _ rfl⟩

/-- C2: for every valid input whose referenced image exists, `createProject`
returns (and stores) a project whose `current_image_path` is exactly the
referenced image's stored `file_path` and whose `operations_history` is the
serialization of the empty sequence. -/
theorem createProject_initializes_from_image (db : DB) (now : Nat)
    (input : CreateProjectInput) (img : ImageRow)
    (h : getImage db input.original_image_id = some img) :
    okProject (createProject db now input) (fun row db' =>
      row.current_image_path = img.file_path ∧
      row.operations_history = "[]" ∧
      row ∈ db'.projects) := by
  cases e : selectImagesById db input.original_image_id with
  | nil => rw [getImage, e] at h; cases h
  | cons r rest =>
    have hr : r = img := by
      have := h
      rw [getImage, e] at this
      exact Option.some.inj this
    subst hr
    simp [createProject, e, okProject]

/-- Concrete project-creation input referencing image 1. -/
def wCreateProject : CreateProjectInput :=
  { name := "My Project", description := some "a description",
    original_image_id := 1, is_public := false }

/-- C2 witness: creating a project over `wDB` (whose image 1 is stored at
`/uploads/photo.jpg`) seeds the path from the image and an empty history. -/
theorem createProject_initializes_from_image_witness :
    okProject (createProject wDB 3 wCreateProject) (fun row db' =>
      row.current_image_path = wImage.file_path ∧
      row.operations_history = "[]" ∧
      row ∈ db'.projects) :=
  createProject_initializes_from_image wDB 3 wCreateProject wImage rfl

/-- C5: for every input accepted by the upload schema, `uploadImage` followed
by `getImage` on the generated id yields back exactly the stored row, whose
payload fields equal the uploaded values and whose timestamps are the creation
clock (the store/read round-trip); `hwf` says the serial key is fresh. -/
theorem uploadImage_getImage_roundtrip (db : DB) (now : Nat)
    (input : UploadImageInput) (_hv : uploadImageInputValid input)
    (hwf : ∀ r ∈ db.images, r.id < db.nextImageId) :
    getImage (uploadImage db now input).2 (uploadImage db now input).1.id =
      some (uploadImage db now input).1 ∧
    (uploadImage db now input).1.filename = input.filename ∧
    (uploadImage db now input).1.original_filename = input.original_filename ∧
    (uploadImage db now input).1.file_path = input.file_path ∧
    (uploadImage db now input).1.file_size = input.file_size ∧
    (uploadImage db now input).1.mime_type = input.mime_type ∧
    (uploadImage db now input).1.width = input.width ∧
    (uploadImage db now input).1.height = input.height ∧
    (uploadImage db now input).1.created_at = now ∧
    (uploadImage db now input).1.updated_at = now := by
  refine ⟨?_, rfl, rfl, rfl, rfl, rfl, rfl, rfl, rfl, rfl⟩
  have hold : db.images.filter (fun r => r.id == db.nextImageId) = [] := by
    rw [List.filter_eq_nil_iff]
    intro r hr
    simp only [beq_iff_eq]
    exact Nat.ne_of_lt (hwf r hr)
  simp [getImage, selectImagesById, uploadImage, List.filter_append, hold]

/-- Concrete empty store. -/
def wEmptyDB : DB :=
  { images := [], operations := [], projects := [],
    nextImageId := 1, nextOperationId := 1, nextProjectId := 1 }

/-- Concrete upload input satisfying the schema constraints. -/
def wUpload : UploadImageInput :=
  { filename := "new.png", original_filename := "camera.png",
    file_path := "/uploads/new.png", file_size := 2048,
    mime_type := "image/png", width := 1920, height := 1080 }

/-- C5 witness: uploading `wUpload` into the empty store and reading the
generated id back returns the inserted row with all uploaded values. -/
theorem uploadImage_getImage_roundtrip_witness :
    getImage (uploadImage wEmptyDB 7 wUpload).2
        (uploadImage wEmptyDB 7 wUpload).1.id =
      some (uploadImage wEmptyDB 7 wUpload).1 ∧
    (uploadImage wEmptyDB 7 wUpload).1.filename = wUpload.filename ∧
    (uploadImage wEmptyDB 7 wUpload).1.original_filename =
      wUpload.original_filename ∧
    (uploadImage wEmptyDB 7 wUpload).1.file_path = wUpload.file_path ∧
    (uploadImage wEmptyDB 7 wUpload).1.file_size = wUpload.file_size ∧
    (uploadImage wEmptyDB 7 wUpload).1.mime_type = wUpload.mime_type ∧
    (uploadImage wEmptyDB 7 wUpload).1.width = wUpload.width ∧
    (uploadImage wEmptyDB 7 wUpload).1.height = wUpload.height ∧
    (uploadImage wEmptyDB 7 wUpload).1.created_at = 7 ∧
    (uploadImage wEmptyDB 7 wUpload).1.updated_at = 7 :=
  uploadImage_getImage_roundtrip wEmptyDB 7 wUpload (by decide) (by decide)

/-- C6: with `public_only = true`, every returned project is public and the
returned total is the count of public rows, independent of `limit`/`offset`;
in particular `limit = 2, offset = 4` over 5 matching rows returns exactly one
row with total 5. -/
theorem listProjects_public_only_contract (db : DB) (input : ListProjectsInput)
    (hp : input.public_only = true) :
    (∀ p ∈ (listProjects db input).projects, p.is_public = true) ∧
    (listProjects db input).total =
      (db.projects.filter (fun p => p.is_public)).length ∧
    (input.limit = 2 → input.offset = 4 →
      (db.projects.filter (fun p => p.is_public)).length = 5 →
      (listProjects db input).projects.length = 1 ∧
      (listProjects db input).total = 5) := by
  refine ⟨?_, ?_, ?_⟩
  · intro p hmem
    simp only [listProjects, hp, if_true] at hmem
    have h1 : p ∈ (db.projects.filter (fun p => p.is_public)).drop input.offset :=
      List.take_subset _ _ hmem
    have h2 : p ∈ db.projects.filter (fun p => p.is_public) :=
      List.drop_subset _ _ h1
    exact (List.mem_filter.mp h2).2
  · simp [listProjects, hp]
  · intro h2 h4 h5
    constructor
    · simp [listProjects, hp, List.length_take, List.length_drop, h2, h4, h5]
    · simp [listProjects, hp, h5]

/-- Concrete store with 5 public projects. -/
def wDB6 : DB :=
  { images := [wImage], operations := [],
    projects := [wProject 1, wProject 2, wProject 3, wProject 4, wProject 5],
    nextImageId := 2, nextOperationId := 1, nextProjectId := 6 }

/-- Concrete listing input: `limit = 2, offset = 4, public_only = true`. -/
def wList6 : ListProjectsInput :=
  { limit := 2, offset := 4, public_only := true }

/-- C6 witness: paging with `limit = 2, offset = 4` over the 5 seeded public
rows of `wDB6` returns exactly one row with total 5. -/
theorem listProjects_public_only_contract_witness :
    (listProjects wDB6 wList6).projects.length = 1 ∧
    (listProjects wDB6 wList6).total = 5 :=
  (listProjects_public_only_contract wDB6 wList6 rfl).2.2 rfl rfl (by decide)

/-- C4 (modelled from the spec, the handler being a placeholder stub in the
repository): `updateProject` on an unknown id returns null and leaves the
store unchanged; on a matching project it returns and stores the updated row,
leaves every omitted field (and the id, image reference and creation time)
unchanged, and always refreshes `updated_at` to the current clock, strictly
increasing it whenever the clock has advanced. -/
theorem updateProject_contract (db : DB) (now : Nat)
    (input : UpdateProjectInput) :
    (db.projects.find? (fun p => p.id == input.id) = none →
      (updateProject db now input).1 = none ∧
      (updateProject db now input).2 = db) ∧
    (∀ p, db.projects.find? (fun p => p.id == input.id) = some p →
      (updateProject db now input).1 =
        some (applyProjectUpdate now input p) ∧
      applyProjectUpdate now input p ∈ (updateProject db now input).2.projects ∧
      (input.name = none → (applyProjectUpdate now input p).name = p.name) ∧
      (input.description = none →
        (applyProjectUpdate now input p).description = p.description) ∧
      (input.current_image_path = none →
        (applyProjectUpdate now input p).current_image_path =
          p.current_image_path) ∧
      (input.operations_history = none →
        (applyProjectUpdate now input p).operations_history =
          p.operations_history) ∧
      (input.is_public = none →
        (applyProjectUpdate now input p).is_public = p.is_public) ∧
      (applyProjectUpdate now input p).id = p.id ∧
      (applyProjectUpdate now input p).original_image_id =
        p.original_image_id ∧
      (applyProjectUpdate now input p).created_at = p.created_at ∧
      (applyProjectUpdate now input p).updated_at = now ∧
      (p.updated_at < now →
        p.updated_at < (applyProjectUpdate now input p).updated_at)) := by
  constructor
  · intro h
    simp [updateProject, h]
  · intro p hp
    have hpid : (p.id == input.id) = true := by
      simpa using List.find?_some hp
    have hmem : p ∈ db.projects := List.mem_of_find?_eq_some hp
    refine ⟨by simp [updateProject, hp], ?_, ?_, ?_, ?_, ?_, ?_, rfl, rfl, rfl,
            rfl, ?_⟩
    · have hmap := List.mem_map_of_mem
        (fun q => if q.id == input.id then applyProjectUpdate now input p else q)
        hmem
      simp only [hpid, if_true] at hmap
      simpa [updateProject, hp] using hmap
    · intro h; simp [applyProjectUpdate, h]
    · intro h; simp [applyProjectUpdate, h]
    · intro h; simp [applyProjectUpdate, h]
    · intro h; simp [applyProjectUpdate, h]
    · intro h; simp [applyProjectUpdate, h]
    · intro h; simpa [applyProjectUpdate] using h

/-- Concrete store with one project (id 1, `updated_at = 1`). -/
def wDB4 : DB :=
  { images := [wImage], operations := [], projects := [wProject 1],
    nextImageId := 2, nextOperationId := 1, nextProjectId := 2 }

/-- Update input supplying no mutable field besides the id. -/
def wUpdateEmpty : UpdateProjectInput :=
  { id := 1, name := none, description := none, current_image_path := none,
    operations_history := none, is_public := none }

/-- Update input for an id matching no project. -/
def wUpdateMissing : UpdateProjectInput :=
  { id := 42, name := none, description := none, current_image_path := none,
    operations_history := none, is_public := none }

/-- C4 witness: on `wDB4` at clock 7, updating the unknown id 42 returns null,
and the empty update of project 1 returns the row with only `updated_at`
changed, strictly increased from 1 to 7. -/
theorem updateProject_contract_witness :
    (updateProject wDB4 7 wUpdateMissing).1 = none ∧
    (updateProject wDB4 7 wUpdateEmpty).1 =
      some (applyProjectUpdate 7 wUpdateEmpty (wProject 1)) ∧
    (applyProjectUpdate 7 wUpdateEmpty (wProject 1)).name = (wProject 1).name ∧
    (applyProjectUpdate 7 wUpdateEmpty (wProject 1)).description =
      (wProject 1).description ∧
    (applyProjectUpdate 7 wUpdateEmpty (wProject 1)).current_image_path =
      (wProject 1).current_image_path ∧
    (applyProjectUpdate 7 wUpdateEmpty (wProject 1)).operations_history =
      (wProject 1).operations_history ∧
    (applyProjectUpdate 7 wUpdateEmpty (wProject 1)).is_public =
      (wProject 1).is_public ∧
    (applyProjectUpdate 7 wUpdateEmpty (wProject 1)).updated_at = 7 ∧
    (wProject 1).updated_at <
      (applyProjectUpdate 7 wUpdateEmpty (wProject 1)).updated_at := by
  have H0 := (updateProject_contract wDB4 7 wUpdateMissing).1 (by rfl)
  have H := (updateProject_contract wDB4 7 wUpdateEmpty).2 (wProject 1) (by rfl)
  obtain ⟨ha, -, hb, hc, hd, he, hf, -, -, -, hg, hh⟩ := H
  exact ⟨H0.1, ha, hb rfl, hc rfl, hd rfl, he rfl, hf rfl, hg,
         hh (by decide)⟩

end PhotoEditor
